import Mathlib

/-!
Verification of the AR balls application (`src/main.js` and the milestone
snapshot files of the same scene).

The development shallowly embeds the data model and operations of the
program: the projectile manager (`spawnBall` / `removeBall`), the capped
trimesh builder (`createTrimeshShapeCapped`), the room-mesh tracker
(`handleDetectedMeshes` / `removeMeshRecord`), the interaction router
(`onSelectStart`), the session-end handler, and — for the optimized
snapshot — the distance-culling helpers (`estimateRadius`, the
`MAX_MESH_DISTANCE` test).

JavaScript numbers are modelled as exact values: array indices, counts and
identities as `Nat`, modification timestamps as `Int`, geometric
coordinates as `ℚ` (and as `ℝ` where the source takes square roots).
Object identity (XRMesh keys, ball items, CANNON bodies, scene nodes) is
modelled by `Nat` identifiers; the CANNON world and the Three scene are
lists of such identified entities, and `removeBody` / `scene.remove` /
`splice(indexOf ...)` all become first-occurrence erasure, matching the
library implementations.
-/

namespace Balls

-- ==========================================================================
-- Shared geometry payload (poses are only ever copied, never computed with,
-- except for the distance culling of the optimized snapshot)
-- ==========================================================================

/-- A 3-vector of exact coordinates (models a JS `{x, y, z}`). -/
structure Vec3 where
  x : ℚ
  y : ℚ
  z : ℚ
deriving DecidableEq, Repr

/-- A quaternion (models a JS `{x, y, z, w}` orientation). -/
structure Quat where
  x : ℚ
  y : ℚ
  z : ℚ
  w : ℚ
deriving DecidableEq, Repr

/-- An XR pose: position plus orientation (models `pose.transform`). -/
structure Pose where
  pos : Vec3
  ori : Quat
deriving DecidableEq, Repr

-- ==========================================================================
-- Projectile manager (src/src/main.js lines 201-244)
-- ==========================================================================

/-- Constant `const BALL_LIMIT = 200` (main.js line 205). -/
def BALL_LIMIT : Nat := 200

/-- A projectile record `{ mesh, body, bornAt }` (main.js line 232).  The
`id` models the JS object identity of the `{mesh, body}` pair; `bornAt`
models the `performance.now()` creation timestamp. -/
structure BallItem where
  id : Nat
  bornAt : Nat
deriving DecidableEq, Repr

/-- Model of `removeBall` (main.js lines 237-244): `balls.indexOf(item)` followed by
`splice(i, 1)` removes the first occurrence of `item`, and nothing when the
item is absent (`i === -1`). -/
def removeBall (balls : List BallItem) (item : BallItem) : List BallItem :=
  balls.erase item

/-- Model of `spawnBall` (main.js lines 216-235): when the list is at the cap, the
head `balls[0]` is evicted via `removeBall`; then the fresh item is pushed.
(The physics/scene side effects carry no information for the list
invariants and are omitted; `balls[0]` on an empty list is unreachable
because `BALL_LIMIT > 0`.) -/
def spawnBall (balls : List BallItem) (item : BallItem) : List BallItem :=
  (if BALL_LIMIT ≤ balls.length then
    match balls with
    | [] => []
    | oldest :: _ => removeBall balls oldest
  else balls) ++ [item]

/-- The `i`-th projectile fired in a test sequence: fresh identity, strictly
increasing `bornAt` clock. -/
def mkBall (i : Nat) : BallItem :=
  { id := i, bornAt := i }

/-- Fire `n` projectiles sequentially starting from an empty list. -/
def fireSequence (n : Nat) : List BallItem :=
  (List.range n).foldl (fun bs i => spawnBall bs (mkBall i)) []

-- ==========================================================================
-- Capped trimesh construction (src/src/main.js lines 412-440,
-- src/unnamed/part_002 lines 495-516; both snapshots are identical here)
-- ==========================================================================

/-- Constant `const MAX_TRIANGLES_PER_MESH = 3000` (main.js line 15). -/
def MAX_TRIANGLES_PER_MESH : Nat := 3000

/-- Model of `Math.ceil(a / b)` for nonnegative integers. -/
def ceilDiv (a b : Nat) : Nat :=
  (a + b - 1) / b

/-- The subsampling loop `for (let t = 0; t < triCount; t += stride)`
(main.js lines 424-427): starting at triangle offset `t`, push the three
vertex indices of every `stride`-th triangle, in their original order.
(`getD _ 0` models the in-bounds array access `indicesTyped[i3]`.) -/
def strideCollect (indices : List Nat) (triCount stride t : Nat) : List Nat :=
  if _h : 0 < stride ∧ t < triCount then
    indices.getD (3 * t) 0 :: indices.getD (3 * t + 1) 0 :: indices.getD (3 * t + 2) 0 ::
      strideCollect indices triCount stride (t + stride)
  else []
termination_by triCount - t
decreasing_by omega

/-- Lines 419-431 of main.js: compute `triCount = (indices.length / 3) | 0`;
if it exceeds the cap, keep every `stride`-th triangle with
`stride = Math.ceil(triCount / MAX_TRIANGLES_PER_MESH)`, otherwise keep the
index buffer unchanged. -/
def downsampleIndices (indicesTyped : List Nat) : List Nat :=
  let triCount := indicesTyped.length / 3
  if MAX_TRIANGLES_PER_MESH < triCount then
    let stride := ceilDiv triCount MAX_TRIANGLES_PER_MESH
    strideCollect indicesTyped triCount stride 0
  else indicesTyped

/-- A built `CANNON.Trimesh` value: the vertex buffer and the (possibly
downsampled) index buffer it was constructed from.  Immutable. -/
structure Trimesh where
  vertices : List ℚ
  indices : List Nat
deriving DecidableEq, Repr

/-- The body of `createTrimeshShapeCapped` after the null checks (main.js
lines 416-439): zero triangles yield `null`; the `CANNON.Trimesh`
constructor may throw (modelled by the `ctorThrows` flag), which the
`try/catch` converts to `null`; otherwise the shape holds the downsampled
indices. -/
def createTrimeshCore (verticesTyped : List ℚ) (indicesTyped : List Nat)
    (ctorThrows : Bool) : Option Trimesh :=
  let triCount := indicesTyped.length / 3
  if triCount = 0 then none
  else if ctorThrows then none
  else some { vertices := verticesTyped, indices := downsampleIndices indicesTyped }

-- ==========================================================================
-- Room-mesh tracker (src/src/main.js lines 302-449)
-- ==========================================================================

/-- Constant `const MAX_MESHES = 40` (main.js line 14). -/
def MAX_MESHES : Nat := 40

/-- Constant `const ENABLE_MESH_DEBUG = false` (main.js line 13). -/
def ENABLE_MESH_DEBUG : Bool := false

/-- Constant `const ACCEPT_SEMANTICS = null` (main.js line 16). -/
def ACCEPT_SEMANTICS : Option (List String) := none

/-- A detected `XRMesh` as seen by one frame of `handleDetectedMeshes`:
its object identity (`id`, the `meshMap` key), its `lastChangedTime` tag,
its (nullable) vertex and index buffers, its optional semantic label, the
result of `frame.getPose(mesh.meshSpace, refSpace)` (`none` models a null
pose), and whether the `CANNON.Trimesh` constructor would throw on its
geometry. -/
structure XRMeshM where
  id : Nat
  lastChangedTime : Int
  vertices : Option (List ℚ)
  indices : Option (List Nat)
  semanticLabel : Option String
  poseOf : Option Pose
  ctorThrows : Bool
deriving DecidableEq, Repr

/-- Model of `createTrimeshShapeCapped(xrmesh.vertices, xrmesh.indices)` including
the null-buffer guard of main.js line 413. -/
def createTrimeshShapeCapped (m : XRMeshM) : Option Trimesh :=
  match m.vertices, m.indices with
  | some verticesTyped, some indicesTyped =>
      createTrimeshCore verticesTyped indicesTyped m.ctorThrows
  | _, _ => none

/-- A static `CANNON.Body` added by the tracker: identity, its immutable
trimesh shape, and its current pose. -/
structure Body where
  id : Nat
  shape : Trimesh
  pose : Pose
deriving DecidableEq, Repr

/-- The per-surface record stored in `meshMap`:
`{ body, debugMesh, lastChangedTime }` (main.js line 356). -/
structure MeshRec where
  bodyId : Nat
  debugMesh : Option Nat
  lastChangedTime : Int
deriving DecidableEq, Repr

/-- The tracker state: the CANNON world (restricted to the tracker-owned
bodies), the `meshMap` as an insertion-ordered association list, the scene
(restricted to the tracker-owned debug wireframes), and a fresh-identity
counter modelling allocation of new JS objects. -/
structure TrackState where
  world : List Body
  meshMap : List (Nat × MeshRec)
  scene : List Nat
  nextId : Nat
deriving DecidableEq, Repr

/-- Model of `meshMap.get(xrmesh)`. -/
def lookupRec : List (Nat × MeshRec) → Nat → Option MeshRec
  | [], _ => none
  | kr :: rest, k => if kr.1 = k then some kr.2 else lookupRec rest k

/-- Model of `meshMap.set(xrmesh, r)` on an existing key (JS `Map.set` keeps the
entry position), also covering in-place mutation of the stored record. -/
def updateRec : List (Nat × MeshRec) → Nat → MeshRec → List (Nat × MeshRec)
  | [], _, _ => []
  | kr :: rest, k, r =>
      if kr.1 = k then (k, r) :: updateRec rest k r else kr :: updateRec rest k r

/-- Model of `world.removeBody(body)`: cannon-es erases the first occurrence found
by `indexOf` and does nothing when the body is absent. -/
def removeBody : List Body → Nat → List Body
  | [], _ => []
  | b :: rest, bid => if b.id = bid then rest else b :: removeBody rest bid

/-- Model of `rec.body.position.set(...); rec.body.quaternion.set(...)`: mutate the
pose of the identified body in place. -/
def setBodyPose (w : List Body) (bid : Nat) (pose : Pose) : List Body :=
  w.map (fun b => if b.id = bid then { b with pose := pose } else b)

/-- Model of `removeMeshRecord(meshKey, rec)` (main.js lines 442-449): remove the
record's body from the world and its debug wireframe (if any) from the
scene. -/
def removeMeshRecord (ws : List Body × List Nat) (rec : MeshRec) : List Body × List Nat :=
  (removeBody ws.1 rec.bodyId,
   match rec.debugMesh with
   | some d => ws.2.erase d
   | none => ws.2)

/-- The semantic filter of main.js line 318:
`ACCEPT_SEMANTICS && xrmesh.semanticLabel && !ACCEPT_SEMANTICS.includes(...)`.
With `ACCEPT_SEMANTICS = null` it never rejects. -/
def semanticsRejected (m : XRMeshM) : Bool :=
  match ACCEPT_SEMANTICS, m.semanticLabel with
  | some accept, some lbl => !(accept.contains lbl)
  | _, _ => false

/-- The in-loop state of `handleDetectedMeshes`: the tracker state plus the
`count` and `seen` locals. -/
structure LoopState where
  st : TrackState
  count : Nat
  seen : List Nat
deriving DecidableEq, Repr

/-- One iteration of the `for (const xrmesh of detected)` loop of main.js
lines 314-400.  The `count >= MAX_MESHES` break is modelled as a no-op
iteration (once the cap is reached every later iteration is skipped, which
is observationally the `break`).  Branches, in source order: semantic
filter, null pose, new mesh (shape may fail), known mesh (pose update, then
rebuild only when the tag strictly increased; a failed rebuild has already
removed the old body and still updates the tag, as in lines 370-394). -/
def processMesh (ls : LoopState) (m : XRMeshM) : LoopState :=
  if MAX_MESHES ≤ ls.count then ls
  else if semanticsRejected m then ls
  else
    match m.poseOf with
    | none => ls
    | some pose =>
      match lookupRec ls.st.meshMap m.id with
      | none =>
        match createTrimeshShapeCapped m with
        | none => ls
        | some shape =>
          let body : Body := { id := ls.st.nextId, shape := shape, pose := pose }
          let debugId : Option Nat :=
            if ENABLE_MESH_DEBUG then some (ls.st.nextId + 1) else none
          let scene2 :=
            if ENABLE_MESH_DEBUG then ls.st.scene ++ [ls.st.nextId + 1] else ls.st.scene
          let nid2 := if ENABLE_MESH_DEBUG then ls.st.nextId + 2 else ls.st.nextId + 1
          { st := { world := ls.st.world ++ [body],
                    meshMap := ls.st.meshMap ++
                      [(m.id, { bodyId := ls.st.nextId, debugMesh := debugId,
                                lastChangedTime := m.lastChangedTime })],
                    scene := scene2, nextId := nid2 },
            count := ls.count + 1, seen := ls.seen ++ [m.id] }
      | some rec =>
        let w1 := setBodyPose ls.st.world rec.bodyId pose
        if rec.lastChangedTime < m.lastChangedTime then
          let w2 := removeBody w1 rec.bodyId
          match createTrimeshShapeCapped m with
          | some shape =>
            let newBody : Body := { id := ls.st.nextId, shape := shape, pose := pose }
            match rec.debugMesh with
            | some d =>
              { st := { world := w2 ++ [newBody],
                        meshMap := updateRec ls.st.meshMap m.id
                          { bodyId := ls.st.nextId, debugMesh := some (ls.st.nextId + 1),
                            lastChangedTime := m.lastChangedTime },
                        scene := (ls.st.scene.erase d) ++ [ls.st.nextId + 1],
                        nextId := ls.st.nextId + 2 },
                count := ls.count + 1, seen := ls.seen ++ [m.id] }
            | none =>
              { st := { world := w2 ++ [newBody],
                        meshMap := updateRec ls.st.meshMap m.id
                          { bodyId := ls.st.nextId, debugMesh := none,
                            lastChangedTime := m.lastChangedTime },
                        scene := ls.st.scene, nextId := ls.st.nextId + 1 },
                count := ls.count + 1, seen := ls.seen ++ [m.id] }
          | none =>
            { st := { world := w2,
                      meshMap := updateRec ls.st.meshMap m.id
                        { rec with lastChangedTime := m.lastChangedTime },
                      scene := ls.st.scene, nextId := ls.st.nextId },
              count := ls.count + 1, seen := ls.seen ++ [m.id] }
        else
          { st := { ls.st with world := w1 },
            count := ls.count + 1, seen := ls.seen ++ [m.id] }

/-- The garbage-collection sweep of main.js lines 403-408: walk `meshMap`
in order; entries whose key was seen this frame are kept, the others are
torn down via `removeMeshRecord` and deleted.  Returns the new map, world
and scene. -/
def gcPass : List (Nat × MeshRec) → List Nat → List Body → List Nat →
    List (Nat × MeshRec) × List Body × List Nat
  | [], _, w, sc => ([], w, sc)
  | kr :: rest, seen, w, sc =>
    if kr.1 ∈ seen then
      let r := gcPass rest seen w sc
      (kr :: r.1, r.2)
    else
      let ws := removeMeshRecord (w, sc) kr.2
      gcPass rest seen ws.1 ws.2

/-- Model of `handleDetectedMeshes(frame)` (main.js lines 306-409): fold the
per-mesh loop over the detected list, then garbage-collect the records not
seen this frame. -/
def handleDetectedMeshes (st : TrackState) (detected : List XRMeshM) : TrackState :=
  let ls := detected.foldl processMesh { st := st, count := 0, seen := [] }
  let g := gcPass ls.st.meshMap ls.seen ls.st.world ls.st.scene
  { world := g.2.1, meshMap := g.1, scene := g.2.2, nextId := ls.st.nextId }

/-- Well-formedness of a tracker state: all identities are pairwise
distinct and below the allocation counter.  This holds for the initial
empty state and is preserved by every frame (proved below). -/
structure WF (st : TrackState) : Prop where
  worldNodup : (st.world.map Body.id).Nodup
  keysNodup : (st.meshMap.map Prod.fst).Nodup
  sceneNodup : st.scene.Nodup
  worldLt : ∀ b ∈ st.world, b.id < st.nextId
  sceneLt : ∀ d ∈ st.scene, d < st.nextId

/-- The three vertex indices of triangle `t` of an index buffer, in buffer
order (`indicesTyped[3t], indicesTyped[3t+1], indicesTyped[3t+2]`). -/
def tripleAt (indices : List Nat) (t : Nat) : List Nat :=
  [indices.getD (3 * t) 0, indices.getD (3 * t + 1) 0, indices.getD (3 * t + 2) 0]

-- ==========================================================================
-- Interaction router (src/src/main.js lines 170-174 and
-- src/unnamed/part_002 lines 232-247)
-- ==========================================================================

/-- Which controller the `selectstart` event targets, as compared against
the `leftController` / `rightController` bindings. -/
inductive Target where
  | leftC
  | rightC
  | other
deriving DecidableEq, Repr

/-- The action a `selectstart` event resolves to. -/
inductive SelAction where
  | uiPress
  | lockFloor
  | placeCollider
  | fire
  | noop
deriving DecidableEq, Repr

/-- The state read by main.js's `onSelectStart`. -/
structure RouterStateM where
  floorLocked : Bool
  reticleVisible : Bool
  lastHitPose : Option Pose
deriving DecidableEq, Repr

/-- Model of `onSelectStart` of main.js lines 170-174: the floor-lock guard tests
only `!floorLocked && reticle.visible` (any hand), and the left-hand branch
fires unconditionally. -/
def onSelectStartMain (s : RouterStateM) (target : Target) : SelAction :=
  if !s.floorLocked && s.reticleVisible then .lockFloor
  else if target == .rightC && s.reticleVisible && s.lastHitPose.isSome then .placeCollider
  else if target == .leftC then .fire
  else .noop

/-- The state read by the optimized snapshot's `onSelectStart`. -/
structure RouterStateOpt where
  xrActive : Bool
  floorLocked : Bool
  reticleVisible : Bool
  lastHitPose : Option Pose
deriving DecidableEq, Repr

/-- Model of `onSelectStart` of part_002 lines 232-247: inactive sessions are
ignored, a UI button hit (`tryPressUIButton` result, passed in as
`uiHit`) takes precedence, then floor locking (left hand only, reticle
visible), surface placement (right hand, cached pose), and firing (left
hand, floor locked). -/
def onSelectStartOpt (s : RouterStateOpt) (target : Target) (uiHit : Bool) : SelAction :=
  if !s.xrActive then .noop
  else if uiHit then .uiPress
  else if !s.floorLocked && target == .leftC && s.reticleVisible then .lockFloor
  else if target == .rightC && s.lastHitPose.isSome then .placeCollider
  else if s.floorLocked && target == .leftC then .fire
  else .noop

-- ==========================================================================
-- Session-end handler (src/src/main.js lines 82-89; the optimized snapshot
-- part_002 lines 627-639 additionally hides its UI panels but treats
-- `floorLocked`, `lastHitPose` and the mesh map identically)
-- ==========================================================================

/-- The application state touched by the `sessionend` listener.
`hitTestActive` models `xrSession / viewerSpace / refSpace / hitTestSource`
being non-null. -/
structure AppState where
  hitTestActive : Bool
  reticleVisible : Bool
  floorLocked : Bool
  lastHitPose : Option Pose
  track : TrackState
deriving DecidableEq, Repr

/-- Model of `for (const [meshKey, rec] of meshMap) removeMeshRecord(meshKey, rec)`. -/
def removeAllMeshRecords : List (Nat × MeshRec) → List Body × List Nat → List Body × List Nat
  | [], ws => ws
  | kr :: rest, ws => removeAllMeshRecords rest (removeMeshRecord ws kr.2)

/-- The `sessionend` listener (main.js lines 82-89): null the session
handles, hide the reticle, tear down every tracked mesh record and clear
the map.  `floorLocked` and `lastHitPose` are not touched by the handler. -/
def onSessionEnd (s : AppState) : AppState :=
  let ws := removeAllMeshRecords s.track.meshMap (s.track.world, s.track.scene)
  { s with hitTestActive := false, reticleVisible := false,
           track := { world := ws.1, meshMap := [], scene := ws.2,
                      nextId := s.track.nextId } }

end Balls

-- ==========================================================================
-- The optimized snapshot's room-mesh tracker with distance culling
-- (src/unnamed/part_002 lines 361-525)
-- ==========================================================================

namespace Balls.Opt

/-- Constant `const MAX_MESH_DISTANCE = 6.5` (part_002 line 18). -/
def MAX_MESH_DISTANCE : ℚ := 13 / 2

/-- Constant `const ACCEPT_SEMANTICS = ['floor','wall',...]` (part_002 line 22). -/
def ACCEPT_SEMANTICS : List String :=
  ["floor", "wall", "ceiling", "vertical", "vertical_surface", "table"]

/-- The loop of `estimateRadius` (part_002 lines 365-374): the maximum of
`x*x + y*y + z*z` over the vertex triples of the flat buffer, starting from
`0`. -/
def maxR2 : List ℚ → ℚ
  | x :: y :: z :: rest => max (maxR2 rest) (x * x + y * y + z * z)
  | _ => 0

/-- The vertex triples of a flat `[x0, y0, z0, x1, ...]` buffer. -/
def triples : List ℚ → List (ℚ × ℚ × ℚ)
  | x :: y :: z :: rest => (x, y, z) :: triples rest
  | _ => []

/-- Model of `estimateRadius(vertices)` (part_002 lines 365-374):
`Math.sqrt(maxR2)`. -/
noncomputable def estimateRadius (vertices : List ℚ) : ℝ :=
  Real.sqrt (maxR2 vertices)

/-- Model of `Math.hypot(p.x - camPos.x, p.y - camPos.y, p.z - camPos.z)`
(part_002 line 411). -/
noncomputable def meshDist (camPos p : Vec3) : ℝ :=
  Real.sqrt (((p.x - camPos.x) * (p.x - camPos.x) +
    (p.y - camPos.y) * (p.y - camPos.y) +
    (p.z - camPos.z) * (p.z - camPos.z) : ℚ))

/-- A detected `XRMesh` for the optimized snapshot.  The vertex and index
buffers are present (the `estimateRadius` call on line 412 reads
`xrmesh.vertices` unconditionally). -/
structure XRMesh2 where
  id : Nat
  lastChangedTime : Int
  vertices : List ℚ
  indices : List Nat
  semanticLabel : Option String
  poseOf : Option Pose
  ctorThrows : Bool

/-- Model of `semanticsAccepted(xrmesh)` (part_002 lines 376-381): an empty filter
or a missing/empty label accepts; otherwise the lowercased label must be in
the allow-list. -/
def semanticsAccepted (m : XRMesh2) : Bool :=
  if ACCEPT_SEMANTICS.isEmpty then true
  else
    match m.semanticLabel with
    | none => true
    | some lbl => ACCEPT_SEMANTICS.contains lbl.toLower

/-- part_002's `createTrimeshShapeCapped` (lines 495-516); identical to
main.js's, and the null-buffer guard is vacuous here because `XRMesh2`
carries total buffers. -/
def createTrimeshShape2 (m : XRMesh2) : Option Trimesh :=
  createTrimeshCore m.vertices m.indices m.ctorThrows

/-- The record stored in the optimized snapshot's `meshMap`
(part_002 line 441): `{ body, debugMesh, lastChangedTime, radius }`. -/
structure MeshRec2 where
  bodyId : Nat
  debugMesh : Option Nat
  lastChangedTime : Int
  radius : ℝ

/-- Tracker state of the optimized snapshot. -/
structure TrackState2 where
  world : List Body
  meshMap : List (Nat × MeshRec2)
  scene : List Nat
  nextId : Nat

/-- Model of `meshMap.get(xrmesh)`. -/
def lookupRec2 : List (Nat × MeshRec2) → Nat → Option MeshRec2
  | [], _ => none
  | kr :: rest, k => if kr.1 = k then some kr.2 else lookupRec2 rest k

/-- Model of `meshMap.set(xrmesh, r)` on an existing key / record mutation. -/
def updateRec2 : List (Nat × MeshRec2) → Nat → MeshRec2 → List (Nat × MeshRec2)
  | [], _, _ => []
  | kr :: rest, k, r =>
      if kr.1 = k then (k, r) :: updateRec2 rest k r else kr :: updateRec2 rest k r

/-- Model of `meshMap.delete(xrmesh)`. -/
def deleteRec2 : List (Nat × MeshRec2) → Nat → List (Nat × MeshRec2)
  | [], _ => []
  | kr :: rest, k => if kr.1 = k then deleteRec2 rest k else kr :: deleteRec2 rest k

/-- Model of `removeMeshRecord(meshKey, rec)` (part_002 lines 518-525). -/
def removeMeshRecord2 (ws : List Body × List Nat) (rec : MeshRec2) : List Body × List Nat :=
  (removeBody ws.1 rec.bodyId,
   match rec.debugMesh with
   | some d => ws.2.erase d
   | none => ws.2)

open Classical

/-- In-loop state of part_002's `handleDetectedMeshes`. -/
structure LoopState2 where
  st : TrackState2
  count : Nat
  seen : List Nat

/-- One iteration of the `for (const xrmesh of detected)` loop of part_002
lines 396-484, reading the camera world position `camPos` computed once per
call (line 391).  In source order: count cap, semantic filter, null pose,
then the distance cull `dist - radius > MAX_MESH_DISTANCE` (lines 410-416,
using the stored radius for a tracked surface and `estimateRadius` for a
new one) which tears down a tracked record or skips a new surface; then the
new-surface / known-surface processing as in main.js, with the radius
stored on creation and re-estimated on rebuild.  The real-valued comparison
is classical, hence the definition is noncomputable. -/
noncomputable def processMesh2 (camPos : Vec3) (ls : LoopState2) (m : XRMesh2) : LoopState2 :=
  if MAX_MESHES ≤ ls.count then ls
  else if !semanticsAccepted m then ls
  else
    match m.poseOf with
    | none => ls
    | some pose =>
      match lookupRec2 ls.st.meshMap m.id with
      | none =>
        let radius := estimateRadius m.vertices
        if (MAX_MESH_DISTANCE : ℝ) < meshDist camPos pose.pos - radius then ls
        else
          match createTrimeshShape2 m with
          | none => ls
          | some shape =>
            let body : Body := { id := ls.st.nextId, shape := shape, pose := pose }
            let debugId : Option Nat :=
              if ENABLE_MESH_DEBUG then some (ls.st.nextId + 1) else none
            let scene2 :=
              if ENABLE_MESH_DEBUG then ls.st.scene ++ [ls.st.nextId + 1] else ls.st.scene
            let nid2 := if ENABLE_MESH_DEBUG then ls.st.nextId + 2 else ls.st.nextId + 1
            { st := { world := ls.st.world ++ [body],
                      meshMap := ls.st.meshMap ++
                        [(m.id, { bodyId := ls.st.nextId, debugMesh := debugId,
                                  lastChangedTime := m.lastChangedTime, radius := radius })],
                      scene := scene2, nextId := nid2 },
              count := ls.count + 1, seen := ls.seen ++ [m.id] }
      | some rec =>
        if (MAX_MESH_DISTANCE : ℝ) < meshDist camPos pose.pos - rec.radius then
          let ws := removeMeshRecord2 (ls.st.world, ls.st.scene) rec
          { ls with st := { world := ws.1, meshMap := deleteRec2 ls.st.meshMap m.id,
                            scene := ws.2, nextId := ls.st.nextId } }
        else
          let w1 := setBodyPose ls.st.world rec.bodyId pose
          if rec.lastChangedTime < m.lastChangedTime then
            let w2 := removeBody w1 rec.bodyId
            match createTrimeshShape2 m with
            | some shape =>
              let newBody : Body := { id := ls.st.nextId, shape := shape, pose := pose }
              let newRadius := estimateRadius m.vertices
              match rec.debugMesh with
              | some d =>
                { st := { world := w2 ++ [newBody],
                          meshMap := updateRec2 ls.st.meshMap m.id
                            { bodyId := ls.st.nextId, debugMesh := some (ls.st.nextId + 1),
                              lastChangedTime := m.lastChangedTime, radius := newRadius },
                          scene := (ls.st.scene.erase d) ++ [ls.st.nextId + 1],
                          nextId := ls.st.nextId + 2 },
                  count := ls.count + 1, seen := ls.seen ++ [m.id] }
              | none =>
                { st := { world := w2 ++ [newBody],
                          meshMap := updateRec2 ls.st.meshMap m.id
                            { bodyId := ls.st.nextId, debugMesh := none,
                              lastChangedTime := m.lastChangedTime, radius := newRadius },
                          scene := ls.st.scene, nextId := ls.st.nextId + 1 },
                  count := ls.count + 1, seen := ls.seen ++ [m.id] }
            | none =>
              { st := { world := w2,
                        meshMap := updateRec2 ls.st.meshMap m.id
                          { rec with lastChangedTime := m.lastChangedTime },
                        scene := ls.st.scene, nextId := ls.st.nextId },
                count := ls.count + 1, seen := ls.seen ++ [m.id] }
          else
            { st := { ls.st with world := w1 },
              count := ls.count + 1, seen := ls.seen ++ [m.id] }

end Balls.Opt

namespace Balls

-- ==========================================================================
-- Concrete fixtures used by witness and counterexample statements
-- ==========================================================================

/-- A fixed sample pose used by concrete witness instances. -/
def poseSample : Pose :=
  { pos := { x := 0, y := 0, z := 0 }, ori := { x := 0, y := 0, z := 0, w := 1 } }

/-- A sample tracker state holding one tracked surface (key 5, body 0). -/
def trackSample : TrackState :=
  { world := [{ id := 0, shape := { vertices := [], indices := [] }, pose := poseSample }],
    meshMap := [(5, { bodyId := 0, debugMesh := none, lastChangedTime := 3 })],
    scene := [], nextId := 1 }

/-- A sample application state used by the session-end theorems. -/
def sessSample : AppState :=
  { hitTestActive := true, reticleVisible := true, floorLocked := true,
    lastHitPose := some poseSample, track := trackSample }

-- ==========================================================================
-- Theorems.  Helper lemmas first, then one named theorem per claim
-- (with a closed witness where the claim theorem carries hypotheses).
-- ==========================================================================

theorem spawnBall_at_cap (oldest : BallItem) (rest : List BallItem) (item : BallItem)
    (h : BALL_LIMIT ≤ (oldest :: rest).length) :
    spawnBall (oldest :: rest) item = rest ++ [item] := by
  unfold spawnBall
  rw [if_pos h]
  simp [removeBall]

/-- C1: for every finite sequence of `spawnBall` calls the projectile list
never holds more than `BALL_LIMIT = 200` items; a spawn at capacity evicts
`balls[0]`, the oldest surviving projectile; and firing 250 projectiles
sequentially leaves exactly the 51st through 250th, in creation order. -/
theorem spawnBall_cap_and_fifo :
    (∀ (balls : List BallItem) (item : BallItem),
        balls.length ≤ BALL_LIMIT → (spawnBall balls item).length ≤ BALL_LIMIT) ∧
    (∀ (oldest : BallItem) (rest : List BallItem) (item : BallItem),
        BALL_LIMIT ≤ (oldest :: rest).length →
        spawnBall (oldest :: rest) item = rest ++ [item]) ∧
    fireSequence 250 = ((List.range 250).drop 50).map mkBall ∧
    (fireSequence 250).length = 200 := by
  have hseq : fireSequence 250 = ((List.range 250).drop 50).map mkBall := by
    set_option maxRecDepth 100000 in decide
  refine ⟨?_, spawnBall_at_cap, hseq, ?_⟩
  · intro balls item h
    by_cases hc : BALL_LIMIT ≤ balls.length
    · match balls with
      | [] => simp [BALL_LIMIT] at hc
      | oldest :: rest =>
        rw [spawnBall_at_cap _ _ _ hc]
        simp at h ⊢
        omega
    · unfold spawnBall
      rw [if_neg hc]
      simp
      omega
  · rw [hseq]
    simp

/-- Witness for C1 at a concrete input. -/
theorem spawnBall_cap_and_fifo_witness :
    (spawnBall [] (mkBall 0)).length ≤ BALL_LIMIT :=
  spawnBall_cap_and_fifo.1 [] (mkBall 0) (by decide)

/-- C10: `removeBall` is idempotent on the projectile list: removing an
item that is no longer in the array leaves the array unchanged, and when an
item occurs at most once (as the fresh-object discipline of `spawnBall`
guarantees), a second `removeBall` after a first is a no-op. -/
theorem removeBall_second_removal_noop :
    (∀ (balls : List BallItem) (item : BallItem), item ∉ balls →
        removeBall balls item = balls) ∧
    (∀ (balls : List BallItem) (item : BallItem), balls.count item ≤ 1 →
        removeBall (removeBall balls item) item = removeBall balls item) := by
  constructor
  · intro balls item h
    exact List.erase_of_not_mem h
  · intro balls item h
    apply List.erase_of_not_mem
    have h2 := List.count_erase_self item balls
    intro hmem
    have h3 : 0 < (balls.erase item).count item := List.count_pos_iff.mpr hmem
    unfold removeBall at h3
    omega

/-- Witness for C10 at a concrete input. -/
theorem removeBall_second_removal_noop_witness :
    removeBall [] (mkBall 0) = [] :=
  removeBall_second_removal_noop.1 [] (mkBall 0) (by decide)

-- --------------------------------------------------------------------------
-- Triangle subsampling (C2, C9)
-- --------------------------------------------------------------------------

theorem ceilDiv_pos (a b : Nat) (ha : 0 < a) (hb : 0 < b) : 0 < ceilDiv a b := by
  unfold ceilDiv
  apply Nat.div_pos _ hb
  omega

theorem ceilDiv_succ_step (a s : Nat) (hs : 0 < s) (ha : 0 < a) :
    ceilDiv a s = ceilDiv (a - s) s + 1 := by
  unfold ceilDiv
  rcases le_or_lt a s with hle | hlt
  · have h0 : a - s = 0 := by omega
    rw [h0]
    have h1 : (0 + s - 1) / s = 0 := Nat.div_eq_of_lt (by omega)
    have h2 : (a + s - 1) / s = 1 := by
      apply Nat.div_eq_of_lt_le <;> omega
    omega
  · have h3 : a - s + s - 1 = a - 1 := by omega
    have h4 : a + s - 1 = (a - 1) + s := by omega
    rw [h3, h4, Nat.add_div_right _ hs]

theorem strideCollect_eq_kept (indices : List Nat) (s : Nat) (hs : 0 < s) :
    ∀ (n T t : Nat), T - t ≤ n →
      strideCollect indices T s t =
        ((List.range (ceilDiv (T - t) s)).map
          (fun k => tripleAt indices (t + k * s))).flatten := by
  intro n
  induction n with
  | zero =>
    intro T t h
    have hT : ¬ (0 < s ∧ t < T) := by omega
    rw [strideCollect, dif_neg hT]
    have h0 : T - t = 0 := by omega
    rw [h0]
    have h1 : ceilDiv 0 s = 0 := by
      unfold ceilDiv
      exact Nat.div_eq_of_lt (by omega)
    rw [h1]
    simp
  | succ n ih =>
    intro T t h
    by_cases hT : t < T
    · rw [strideCollect, dif_pos ⟨hs, hT⟩]
      rw [ih T (t + s) (by omega)]
      have hc : ceilDiv (T - t) s = ceilDiv (T - (t + s)) s + 1 := by
        have hstep := ceilDiv_succ_step (T - t) s hs (by omega)
        have he : T - t - s = T - (t + s) := by omega
        rw [he] at hstep
        exact hstep
      rw [hc, List.range_succ_eq_map]
      simp only [List.map_cons, List.flatten_cons, List.map_map]
      have hhead : tripleAt indices (t + 0 * s) = tripleAt indices t := by
        simp
      rw [hhead]
      have htail : ((List.range (ceilDiv (T - (t + s)) s)).map
            ((fun k => tripleAt indices (t + k * s)) ∘ Nat.succ)) =
          ((List.range (ceilDiv (T - (t + s)) s)).map
            (fun k => tripleAt indices (t + s + k * s))) := by
        apply List.map_congr_left
        intro k _
        simp only [Function.comp]
        congr 1
        rw [Nat.succ_mul]
        ring
      rw [htail]
      simp [tripleAt]
    · rw [strideCollect, dif_neg (by omega)]
      have h0 : T - t = 0 := by omega
      rw [h0]
      have h1 : ceilDiv 0 s = 0 := by
        unfold ceilDiv
        exact Nat.div_eq_of_lt (by omega)
      rw [h1]
      simp

theorem downsampleIndices_eq_flatten (indicesTyped : List Nat)
    (hT : MAX_TRIANGLES_PER_MESH < indicesTyped.length / 3) :
    downsampleIndices indicesTyped =
      ((List.range (ceilDiv (indicesTyped.length / 3)
          (ceilDiv (indicesTyped.length / 3) MAX_TRIANGLES_PER_MESH))).map
        (fun k => tripleAt indicesTyped
          (k * ceilDiv (indicesTyped.length / 3) MAX_TRIANGLES_PER_MESH))).flatten := by
  have hs : 0 < ceilDiv (indicesTyped.length / 3) MAX_TRIANGLES_PER_MESH :=
    ceilDiv_pos _ _ (by omega) (by norm_num [MAX_TRIANGLES_PER_MESH])
  unfold downsampleIndices
  rw [if_pos hT]
  rw [strideCollect_eq_kept indicesTyped _ hs (indicesTyped.length / 3)
    (indicesTyped.length / 3) 0 (by omega)]
  simp

theorem flatten_triples_length (indices : List Nat) (f : Nat → Nat) (n : Nat) :
    (((List.range n).map (fun k => tripleAt indices (f k))).flatten).length = 3 * n := by
  rw [List.length_flatten, List.map_map]
  have : (List.map (List.length ∘ fun k => tripleAt indices (f k)) (List.range n)) =
      List.replicate n 3 := by
    rw [List.eq_replicate_iff]
    constructor
    · simp
    · intro b hb
      simp at hb
      obtain ⟨k, _, hk⟩ := hb
      simp [tripleAt] at hk
      omega
  rw [this]
  simp [List.sum_replicate]
  omega

/-- C2: when the triangle count `T = indices.length / 3` exceeds the cap
`C = MAX_TRIANGLES_PER_MESH`, the downsampled index buffer consists of
exactly `ceil(T / stride)` triangles with `stride = ceil(T / C)`, namely
the triangles at stride-aligned offsets `0, stride, 2*stride, ...`, each
contributing its three vertex indices in their original order (winding
preserved). -/
theorem createTrimeshShapeCapped_subsampling (indicesTyped : List Nat)
    (hT : MAX_TRIANGLES_PER_MESH < indicesTyped.length / 3) :
    downsampleIndices indicesTyped =
      ((List.range (ceilDiv (indicesTyped.length / 3)
          (ceilDiv (indicesTyped.length / 3) MAX_TRIANGLES_PER_MESH))).map
        (fun k => tripleAt indicesTyped
          (k * ceilDiv (indicesTyped.length / 3) MAX_TRIANGLES_PER_MESH))).flatten ∧
    (downsampleIndices indicesTyped).length =
      3 * ceilDiv (indicesTyped.length / 3)
        (ceilDiv (indicesTyped.length / 3) MAX_TRIANGLES_PER_MESH) := by
  have he := downsampleIndices_eq_flatten indicesTyped hT
  refine ⟨he, ?_⟩
  rw [he, flatten_triples_length]

/-- Witness for C2: a buffer of 3003 triangles (stride 2, 1502 kept). -/
theorem createTrimeshShapeCapped_subsampling_witness :
    MAX_TRIANGLES_PER_MESH < (List.range 9009).length / 3 ∧
    (downsampleIndices (List.range 9009)).length =
      3 * ceilDiv ((List.range 9009).length / 3)
        (ceilDiv ((List.range 9009).length / 3) MAX_TRIANGLES_PER_MESH) :=
  ⟨by rw [List.length_range]; decide,
   (createTrimeshShapeCapped_subsampling (List.range 9009)
     (by rw [List.length_range]; decide)).2⟩

theorem le_mul_ceilDiv (T C : Nat) (hC : 0 < C) : T ≤ ceilDiv T C * C := by
  unfold ceilDiv
  have e := Nat.div_add_mod (T + C - 1) C
  have m := Nat.mod_lt (T + C - 1) hC
  have e2 : (T + C - 1) / C * C = C * ((T + C - 1) / C) := Nat.mul_comm _ _
  omega

theorem ceilDiv_le_of_le_mul {a s C : Nat} (hs : 0 < s) (h : a ≤ s * C) :
    ceilDiv a s ≤ C := by
  have h1 : ceilDiv a s < C + 1 := by
    unfold ceilDiv
    rw [Nat.div_lt_iff_lt_mul hs]
    have hsc : (C + 1) * s = s * C + s := by ring
    omega
  omega

/-- C9: whenever the triangle count exceeds the cap, the number of kept
triangles `ceil(T / ceil(T / C))` never exceeds `C`, so every shape
`createTrimeshShapeCapped` builds has at most `MAX_TRIANGLES_PER_MESH`
triangles. -/
theorem downsample_triangle_bound (indicesTyped : List Nat)
    (hT : MAX_TRIANGLES_PER_MESH < indicesTyped.length / 3) :
    (downsampleIndices indicesTyped).length / 3 =
      ceilDiv (indicesTyped.length / 3)
        (ceilDiv (indicesTyped.length / 3) MAX_TRIANGLES_PER_MESH) ∧
    (downsampleIndices indicesTyped).length / 3 ≤ MAX_TRIANGLES_PER_MESH := by
  have he := downsampleIndices_eq_flatten indicesTyped hT
  have hlen : (downsampleIndices indicesTyped).length =
      3 * ceilDiv (indicesTyped.length / 3)
        (ceilDiv (indicesTyped.length / 3) MAX_TRIANGLES_PER_MESH) := by
    rw [he, flatten_triples_length]
  have hdiv : (downsampleIndices indicesTyped).length / 3 =
      ceilDiv (indicesTyped.length / 3)
        (ceilDiv (indicesTyped.length / 3) MAX_TRIANGLES_PER_MESH) := by
    omega
  refine ⟨hdiv, ?_⟩
  rw [hdiv]
  apply ceilDiv_le_of_le_mul
  · exact ceilDiv_pos _ _ (by omega) (by norm_num [MAX_TRIANGLES_PER_MESH])
  · exact le_mul_ceilDiv _ _ (by norm_num [MAX_TRIANGLES_PER_MESH])

/-- Witness for C9 at the same concrete buffer. -/
theorem downsample_triangle_bound_witness :
    (downsampleIndices (List.range 9009)).length / 3 ≤ MAX_TRIANGLES_PER_MESH :=
  (downsample_triangle_bound (List.range 9009) (by rw [List.length_range]; decide)).2

-- --------------------------------------------------------------------------
-- Interaction router (C5)
-- --------------------------------------------------------------------------

/-- C5 counterexample: in main.js's `onSelectStart` (lines 170-174) a
left-hand select with the floor not locked and no candidate pose spawns a
projectile, contradicting the claim that a projectile is never spawned
while the floor is not locked; and a right-hand select with a candidate
pose and the floor unlocked locks the floor instead of placing a collider,
contradicting the claimed hand-specific floor-setting guard. -/
theorem onSelectStartMain_violations :
    onSelectStartMain ⟨false, false, none⟩ Target.leftC = SelAction.fire ∧
    onSelectStartMain ⟨false, true, some poseSample⟩ Target.rightC = SelAction.lockFloor := by
  decide

/-- C5 (amended): for the optimized snapshot's router, with the session
active and no UI-panel button hit, the guards fire exactly one action each
in priority order — floor not locked and left (floor-setting) hand and
candidate pose visible locks the floor; right (placement) hand with a
cached pose places a collider; floor locked and left (firing) hand spawns
a projectile; otherwise the event is a silent no-op — and a projectile is
never spawned while the floor is not locked. -/
theorem onSelectStartOpt_policy (s : RouterStateOpt) (t : Target)
    (hx : s.xrActive = true) :
    (onSelectStartOpt s t false = SelAction.lockFloor ↔
      (s.floorLocked = false ∧ t = Target.leftC ∧ s.reticleVisible = true)) ∧
    (onSelectStartOpt s t false = SelAction.placeCollider ↔
      (¬ (s.floorLocked = false ∧ t = Target.leftC ∧ s.reticleVisible = true) ∧
        t = Target.rightC ∧ s.lastHitPose.isSome = true)) ∧
    (onSelectStartOpt s t false = SelAction.fire ↔
      (¬ (s.floorLocked = false ∧ t = Target.leftC ∧ s.reticleVisible = true) ∧
        ¬ (t = Target.rightC ∧ s.lastHitPose.isSome = true) ∧
        s.floorLocked = true ∧ t = Target.leftC)) ∧
    ((¬ (s.floorLocked = false ∧ t = Target.leftC ∧ s.reticleVisible = true) ∧
        ¬ (t = Target.rightC ∧ s.lastHitPose.isSome = true) ∧
        ¬ (s.floorLocked = true ∧ t = Target.leftC)) →
      onSelectStartOpt s t false = SelAction.noop) ∧
    (∀ u : Bool, onSelectStartOpt s t u = SelAction.fire → s.floorLocked = true) := by
  obtain ⟨xa, fl, rv, lhp⟩ := s
  have hxa : xa = true := hx
  subst hxa
  refine ⟨?_, ?_, ?_, ?_, ?_⟩
  · cases t <;> cases fl <;> cases rv <;> cases lhp <;> simp [onSelectStartOpt]
  · cases t <;> cases fl <;> cases rv <;> cases lhp <;> simp [onSelectStartOpt]
  · cases t <;> cases fl <;> cases rv <;> cases lhp <;> simp [onSelectStartOpt]
  · cases t <;> cases fl <;> cases rv <;> cases lhp <;> simp [onSelectStartOpt]
  · intro u
    cases u <;> cases t <;> cases fl <;> cases rv <;> cases lhp <;>
      simp [onSelectStartOpt]

/-- Witness for the amended C5 at a concrete state: floor locked, left
hand, no pose, no UI hit resolves to firing. -/
theorem onSelectStartOpt_policy_witness :
    onSelectStartOpt ⟨true, true, false, none⟩ Target.leftC false = SelAction.fire :=
  ((onSelectStartOpt_policy ⟨true, true, false, none⟩ Target.leftC rfl).2.2.1).mpr
    (by decide)

-- --------------------------------------------------------------------------
-- Session-end teardown (C6)
-- --------------------------------------------------------------------------

theorem removeBody_map_id (w : List Body) (bid : Nat) :
    (removeBody w bid).map Body.id = (w.map Body.id).erase bid := by
  induction w with
  | nil => rfl
  | cons b rest ih =>
    by_cases h : b.id = bid
    · simp [removeBody, h, List.erase_cons_head]
    · simp only [removeBody, if_neg h, List.map_cons, List.erase_cons]
      have hb : ¬ (b.id == bid) = true := by simpa using h
      simp [hb, ih]

theorem removeMeshRecord_sub (w : List Body) (sc : List Nat) (rec : MeshRec) :
    ((removeMeshRecord (w, sc) rec).1.map Body.id).Sublist (w.map Body.id) ∧
    ((removeMeshRecord (w, sc) rec).2).Sublist sc := by
  constructor
  · rw [removeMeshRecord]
    simp only
    rw [removeBody_map_id]
    exact List.erase_sublist _ _
  · rw [removeMeshRecord]
    simp only
    match rec.debugMesh with
    | some d => exact List.erase_sublist _ _
    | none => exact List.Sublist.refl _

theorem removeAll_sub (recs : List (Nat × MeshRec)) :
    ∀ (w : List Body) (sc : List Nat),
      ((removeAllMeshRecords recs (w, sc)).1.map Body.id).Sublist (w.map Body.id) ∧
      ((removeAllMeshRecords recs (w, sc)).2).Sublist sc := by
  induction recs with
  | nil => intro w sc; exact ⟨List.Sublist.refl _, List.Sublist.refl _⟩
  | cons kr rest ih =>
    intro w sc
    rw [removeAllMeshRecords]
    have hsub := removeMeshRecord_sub w sc kr.2
    have hrec := ih (removeMeshRecord (w, sc) kr.2).1 (removeMeshRecord (w, sc) kr.2).2
    constructor
    · exact hrec.1.trans hsub.1
    · exact hrec.2.trans hsub.2

theorem removeAll_removes (recs : List (Nat × MeshRec)) :
    ∀ (w : List Body) (sc : List Nat), (w.map Body.id).Nodup → sc.Nodup →
      ∀ kr ∈ recs,
        kr.2.bodyId ∉ (removeAllMeshRecords recs (w, sc)).1.map Body.id ∧
        ∀ d, kr.2.debugMesh = some d → d ∉ (removeAllMeshRecords recs (w, sc)).2 := by
  induction recs with
  | nil => intro w sc _ _ kr hkr; cases hkr
  | cons kr rest ih =>
    intro w sc hw hsc kq hkq
    rw [removeAllMeshRecords]
    have hw1 : ((removeMeshRecord (w, sc) kr.2).1.map Body.id).Nodup :=
      (removeMeshRecord_sub w sc kr.2).1.nodup hw
    have hsc1 : ((removeMeshRecord (w, sc) kr.2).2).Nodup :=
      (removeMeshRecord_sub w sc kr.2).2.nodup hsc
    rw [List.mem_cons] at hkq
    rcases hkq with rfl | hkq
    · -- the head record: its body and debug node are erased now and never return
      constructor
      · intro hmem
        have hsub := (removeAll_sub rest (removeMeshRecord (w, sc) kq.2).1
          (removeMeshRecord (w, sc) kq.2).2).1
        have hmem1 := hsub.subset hmem
        rw [removeMeshRecord] at hmem1
        simp only at hmem1
        rw [removeBody_map_id] at hmem1
        rcases (List.Nodup.mem_erase_iff hw).mp hmem1 with ⟨hne, _⟩
        exact hne rfl
      · intro d hd hmem
        have hsub := (removeAll_sub rest (removeMeshRecord (w, sc) kq.2).1
          (removeMeshRecord (w, sc) kq.2).2).2
        have hmem1 := hsub.subset hmem
        rw [removeMeshRecord] at hmem1
        simp only [hd] at hmem1
        rcases (List.Nodup.mem_erase_iff hsc).mp hmem1 with ⟨hne, _⟩
        exact hne rfl
    · exact ih _ _ hw1 hsc1 kq hkq

/-- C6 counterexample: at a concrete state with the floor locked and a
cached hit pose, the sessionend handler leaves both untouched — the
floor-lock flag and the cached candidate pose are NOT reset to their
initial state, contrary to the claim. -/
theorem onSessionEnd_keeps_floor_and_pose :
    (onSessionEnd sessSample).floorLocked = true ∧
    (onSessionEnd sessSample).lastHitPose = some poseSample ∧
    ¬ ((onSessionEnd sessSample).floorLocked = false ∧
       (onSessionEnd sessSample).lastHitPose = none) := by
  decide

/-- C6 (amended): the sessionend handler synchronously removes every
tracked room-mesh physics body from the world and every associated debug
visual from the scene, empties the tracking map, hides the reticle and
nulls the session handles; the floor-lock flag and the cached candidate
hit pose, however, keep their previous values — the code does not reset
them. -/
theorem onSessionEnd_teardown (s : AppState) (hwf : WF s.track) :
    (onSessionEnd s).track.meshMap = [] ∧
    (∀ kr ∈ s.track.meshMap,
        kr.2.bodyId ∉ (onSessionEnd s).track.world.map Body.id) ∧
    (∀ kr ∈ s.track.meshMap, ∀ d, kr.2.debugMesh = some d →
        d ∉ (onSessionEnd s).track.scene) ∧
    (onSessionEnd s).reticleVisible = false ∧
    (onSessionEnd s).hitTestActive = false ∧
    (onSessionEnd s).floorLocked = s.floorLocked ∧
    (onSessionEnd s).lastHitPose = s.lastHitPose := by
  have hw : (s.track.world.map Body.id).Nodup := hwf.worldNodup
  have hsc : s.track.scene.Nodup := hwf.sceneNodup
  have hrm := removeAll_removes s.track.meshMap s.track.world s.track.scene hw hsc
  refine ⟨rfl, ?_, ?_, rfl, rfl, rfl, rfl⟩
  · intro kr hkr
    exact (hrm kr hkr).1
  · intro kr hkr d hd
    exact (hrm kr hkr).2 d hd

-- --------------------------------------------------------------------------
-- Room-mesh tracker: list/map helper lemmas (shared by C3, C7, C8)
-- --------------------------------------------------------------------------

theorem semanticsRejected_false (m : XRMeshM) : semanticsRejected m = false := rfl

theorem lookupRec_eq_none (map : List (Nat × MeshRec)) (k : Nat) :
    lookupRec map k = none ↔ k ∉ map.map Prod.fst := by
  induction map with
  | nil => simp [lookupRec]
  | cons kr rest ih =>
    by_cases h : kr.1 = k
    · simp [lookupRec, h]
    · simp [lookupRec, h, ih, Ne.symm h]

theorem lookupRec_append_singleton_ne (map : List (Nat × MeshRec)) (j : Nat)
    (r : MeshRec) (k : Nat) (h : k ≠ j) :
    lookupRec (map ++ [(j, r)]) k = lookupRec map k := by
  induction map with
  | nil => simp [lookupRec, Ne.symm h]
  | cons kr rest ih =>
    by_cases hk : kr.1 = k
    · simp [lookupRec, hk]
    · simp [lookupRec, hk, ih]

theorem lookupRec_updateRec_ne (map : List (Nat × MeshRec)) (j : Nat) (r : MeshRec)
    (k : Nat) (h : k ≠ j) :
    lookupRec (updateRec map j r) k = lookupRec map k := by
  induction map with
  | nil => rfl
  | cons kr rest ih =>
    by_cases hj : kr.1 = j
    · simp [updateRec, hj, lookupRec, Ne.symm h, ih]
    · simp only [updateRec, if_neg hj]
      by_cases hk : kr.1 = k
      · simp [lookupRec, hk]
      · simp [lookupRec, hk, ih]

theorem updateRec_map_fst (map : List (Nat × MeshRec)) (j : Nat) (r : MeshRec) :
    (updateRec map j r).map Prod.fst = map.map Prod.fst := by
  induction map with
  | nil => rfl
  | cons kr rest ih =>
    by_cases hj : kr.1 = j
    · simp [updateRec, hj, ih]
    · simp [updateRec, hj, ih]

theorem lookupRec_updateRec_self (map : List (Nat × MeshRec)) (j : Nat)
    (r r0 : MeshRec) (h : lookupRec map j = some r0) :
    lookupRec (updateRec map j r) j = some r := by
  induction map with
  | nil => simp [lookupRec] at h
  | cons kr rest ih =>
    by_cases hj : kr.1 = j
    · simp [updateRec, hj, lookupRec]
    · simp only [lookupRec, if_neg hj] at h
      simp [updateRec, hj, lookupRec, ih h]

theorem removeBody_sublist (w : List Body) (bid : Nat) : (removeBody w bid).Sublist w := by
  induction w with
  | nil => exact List.Sublist.refl _
  | cons b rest ih =>
    rw [removeBody]
    by_cases h : b.id = bid
    · rw [if_pos h]
      exact List.sublist_cons_self _ _
    · rw [if_neg h]
      exact ih.cons₂ b

theorem removeBody_mem (w : List Body) (bid : Nat) (b : Body)
    (h : b ∈ removeBody w bid) : b ∈ w :=
  (removeBody_sublist w bid).subset h

theorem setBodyPose_map_id (w : List Body) (bid : Nat) (p : Pose) :
    (setBodyPose w bid p).map Body.id = w.map Body.id := by
  unfold setBodyPose
  rw [List.map_map]
  apply List.map_congr_left
  intro b _
  by_cases h : b.id = bid <;> simp [h]

theorem setBodyPose_mem (w : List Body) (bid : Nat) (p : Pose) (b' : Body)
    (h : b' ∈ setBodyPose w bid p) : ∃ b ∈ w, b'.id = b.id ∧ b'.shape = b.shape := by
  unfold setBodyPose at h
  rcases List.mem_map.mp h with ⟨b, hb, heq⟩
  refine ⟨b, hb, ?_⟩
  by_cases hid : b.id = bid
  · rw [if_pos hid] at heq
    rw [← heq]
    exact ⟨rfl, rfl⟩
  · rw [if_neg hid] at heq
    rw [← heq]
    exact ⟨rfl, rfl⟩

theorem mem_id_unique {w : List Body} (hw : (w.map Body.id).Nodup)
    {b b' : Body} (hb : b ∈ w) (hb' : b' ∈ w) (h : b'.id = b.id) : b' = b :=
  List.inj_on_of_nodup_map hw hb' hb h

theorem nodup_append_fresh {l : List Nat} {a : Nat} (h : l.Nodup) (ha : a ∉ l) :
    (l ++ [a]).Nodup := by
  simp [List.nodup_append, h, ha]

-- --------------------------------------------------------------------------
-- Per-iteration facts about the main.js mesh loop body
-- --------------------------------------------------------------------------

theorem processMesh_map_lookup_ne (ls : LoopState) (m : XRMeshM) (k : Nat)
    (hne : k ≠ m.id) :
    lookupRec (processMesh ls m).st.meshMap k = lookupRec ls.st.meshMap k := by
  unfold processMesh
  repeat' split
  all_goals
    first
      | rfl
      | (exact lookupRec_append_singleton_ne _ _ _ _ hne)
      | (exact lookupRec_updateRec_ne _ _ _ _ hne)

theorem processMesh_seen_sub (ls : LoopState) (m : XRMeshM) :
    ∀ x ∈ (processMesh ls m).seen, x ∈ ls.seen ∨ x = m.id := by
  unfold processMesh
  repeat' split
  all_goals intro x hx
  all_goals (try simp only [List.mem_append, List.mem_singleton] at hx)
  all_goals tauto

theorem processMesh_nextId_le (ls : LoopState) (m : XRMeshM) :
    ls.st.nextId ≤ (processMesh ls m).st.nextId := by
  unfold processMesh
  repeat' split
  all_goals simp [ENABLE_MESH_DEBUG]

theorem processMesh_world_mem (ls : LoopState) (m : XRMeshM) :
    ∀ b' ∈ (processMesh ls m).st.world,
      (∃ b0 ∈ ls.st.world, b'.id = b0.id ∧ b'.shape = b0.shape) ∨
        b'.id = ls.st.nextId := by
  intro b' hb'
  unfold processMesh at hb'
  split at hb'
  · exact Or.inl ⟨b', hb', rfl, rfl⟩
  split at hb'
  · exact Or.inl ⟨b', hb', rfl, rfl⟩
  split at hb'
  · exact Or.inl ⟨b', hb', rfl, rfl⟩
  split at hb'
  -- new surface
  · split at hb'
    · exact Or.inl ⟨b', hb', rfl, rfl⟩
    · simp only at hb'
      rcases List.mem_append.mp hb' with h | h
      · exact Or.inl ⟨b', h, rfl, rfl⟩
      · right
        rw [List.mem_singleton.mp h]
  -- known surface
  · split at hb'
    · split at hb'
      · split at hb'
        · simp only at hb'
          rcases List.mem_append.mp hb' with h | h
          · exact Or.inl (setBodyPose_mem _ _ _ _ (removeBody_mem _ _ _ h))
          · right
            rw [List.mem_singleton.mp h]
        · simp only at hb'
          rcases List.mem_append.mp hb' with h | h
          · exact Or.inl (setBodyPose_mem _ _ _ _ (removeBody_mem _ _ _ h))
          · right
            rw [List.mem_singleton.mp h]
      · simp only at hb'
        exact Or.inl (setBodyPose_mem _ _ _ _ (removeBody_mem _ _ _ hb'))
    · simp only at hb'
      exact Or.inl (setBodyPose_mem _ _ _ _ hb')

theorem map_id_lt {w : List Body} {n : Nat} (h : ∀ b ∈ w, b.id < n) :
    ∀ a ∈ w.map Body.id, a < n := by
  intro a ha
  rcases List.mem_map.mp ha with ⟨b, hb, rfl⟩
  exact h b hb

theorem WF_addNew (st : TrackState) (hwf : WF st) (shape : Trimesh) (pose : Pose)
    (k : Nat) (dbg : Option Nat) (tag : Int) (hk : k ∉ st.meshMap.map Prod.fst) :
    WF { world := st.world ++ [{ id := st.nextId, shape := shape, pose := pose }],
         meshMap := st.meshMap ++
           [(k, { bodyId := st.nextId, debugMesh := dbg, lastChangedTime := tag })],
         scene := st.scene, nextId := st.nextId + 1 } := by
  refine ⟨?_, ?_, hwf.sceneNodup, ?_, ?_⟩ <;> dsimp only
  · rw [List.map_append]
    exact nodup_append_fresh hwf.worldNodup
      (fun hmem => lt_irrefl _ (map_id_lt hwf.worldLt _ hmem))
  · rw [List.map_append]
    exact nodup_append_fresh hwf.keysNodup hk
  · intro b hb
    rcases List.mem_append.mp hb with h | h
    · have := hwf.worldLt b h
      omega
    · rw [List.mem_singleton.mp h]
      try dsimp only
      omega
  · intro d hd
    have := hwf.sceneLt d hd
    omega

theorem WF_poseOnly (st : TrackState) (hwf : WF st) (rid : Nat) (pose : Pose) :
    WF { world := setBodyPose st.world rid pose, meshMap := st.meshMap,
         scene := st.scene, nextId := st.nextId } := by
  refine ⟨?_, hwf.keysNodup, hwf.sceneNodup, ?_, hwf.sceneLt⟩ <;> dsimp only
  · rw [setBodyPose_map_id]
    exact hwf.worldNodup
  · intro b hb
    rcases setBodyPose_mem _ _ _ _ hb with ⟨b0, hb0, hid, _⟩
    have := hwf.worldLt b0 hb0
    omega

theorem WF_rebuildFail (st : TrackState) (hwf : WF st) (rid : Nat) (pose : Pose)
    (k : Nat) (r : MeshRec) :
    WF { world := removeBody (setBodyPose st.world rid pose) rid,
         meshMap := updateRec st.meshMap k r,
         scene := st.scene, nextId := st.nextId } := by
  refine ⟨?_, ?_, hwf.sceneNodup, ?_, hwf.sceneLt⟩ <;> dsimp only
  · rw [removeBody_map_id, setBodyPose_map_id]
    exact (List.erase_sublist _ _).nodup hwf.worldNodup
  · rw [updateRec_map_fst]
    exact hwf.keysNodup
  · intro b hb
    rcases setBodyPose_mem _ _ _ _ (removeBody_mem _ _ _ hb) with ⟨b0, hb0, hid, _⟩
    have := hwf.worldLt b0 hb0
    omega

theorem WF_rebuildOk (st : TrackState) (hwf : WF st) (rid : Nat) (pose : Pose)
    (shape : Trimesh) (k : Nat) (r : MeshRec) :
    WF { world := removeBody (setBodyPose st.world rid pose) rid ++
           [{ id := st.nextId, shape := shape, pose := pose }],
         meshMap := updateRec st.meshMap k r,
         scene := st.scene, nextId := st.nextId + 1 } := by
  have herase : (removeBody (setBodyPose st.world rid pose) rid).map Body.id =
      (st.world.map Body.id).erase rid := by
    rw [removeBody_map_id, setBodyPose_map_id]
  refine ⟨?_, ?_, hwf.sceneNodup, ?_, ?_⟩ <;> dsimp only
  · rw [List.map_append, herase]
    refine nodup_append_fresh ((List.erase_sublist _ _).nodup hwf.worldNodup) ?_
    intro hmem
    have := map_id_lt hwf.worldLt _ ((List.erase_sublist _ _).subset hmem)
    dsimp only at this
    omega
  · rw [updateRec_map_fst]
    exact hwf.keysNodup
  · intro b hb
    rcases List.mem_append.mp hb with h | h
    · rcases setBodyPose_mem _ _ _ _ (removeBody_mem _ _ _ h) with ⟨b0, hb0, hid, _⟩
      have := hwf.worldLt b0 hb0
      omega
    · rw [List.mem_singleton.mp h]
      try dsimp only
      omega
  · intro d hd
    have := hwf.sceneLt d hd
    omega

theorem WF_rebuildOkDebug (st : TrackState) (hwf : WF st) (rid : Nat) (pose : Pose)
    (shape : Trimesh) (k : Nat) (r : MeshRec) (d : Nat) :
    WF { world := removeBody (setBodyPose st.world rid pose) rid ++
           [{ id := st.nextId, shape := shape, pose := pose }],
         meshMap := updateRec st.meshMap k r,
         scene := (st.scene.erase d) ++ [st.nextId + 1], nextId := st.nextId + 2 } := by
  have herase : (removeBody (setBodyPose st.world rid pose) rid).map Body.id =
      (st.world.map Body.id).erase rid := by
    rw [removeBody_map_id, setBodyPose_map_id]
  refine ⟨?_, ?_, ?_, ?_, ?_⟩ <;> dsimp only
  · rw [List.map_append, herase]
    refine nodup_append_fresh ((List.erase_sublist _ _).nodup hwf.worldNodup) ?_
    intro hmem
    have := map_id_lt hwf.worldLt _ ((List.erase_sublist _ _).subset hmem)
    dsimp only at this
    omega
  · rw [updateRec_map_fst]
    exact hwf.keysNodup
  · refine nodup_append_fresh ((List.erase_sublist _ _).nodup hwf.sceneNodup) ?_
    intro hmem
    have := hwf.sceneLt _ ((List.erase_sublist _ _).subset hmem)
    omega
  · intro b hb
    rcases List.mem_append.mp hb with h | h
    · rcases setBodyPose_mem _ _ _ _ (removeBody_mem _ _ _ h) with ⟨b0, hb0, hid, _⟩
      have := hwf.worldLt b0 hb0
      omega
    · rw [List.mem_singleton.mp h]
      try dsimp only
      omega
  · intro e he
    rcases List.mem_append.mp he with h | h
    · have := hwf.sceneLt _ ((List.erase_sublist _ _).subset h)
      omega
    · rw [List.mem_singleton.mp h]
      try dsimp only
      omega

theorem processMesh_WF (ls : LoopState) (m : XRMeshM) (hwf : WF ls.st) :
    WF (processMesh ls m).st := by
  unfold processMesh
  split
  · exact hwf
  split
  · exact hwf
  split
  · exact hwf
  split
  · split
    · exact hwf
    · apply WF_addNew ls.st hwf
      exact (lookupRec_eq_none _ _).mp (by assumption)
  · split
    · split
      · split
        · apply WF_rebuildOkDebug ls.st hwf
        · apply WF_rebuildOk ls.st hwf
      · apply WF_rebuildFail ls.st hwf
    · apply WF_poseOnly ls.st hwf

theorem processMesh_shape_stable (ls : LoopState) (m : XRMeshM) (hwf : WF ls.st)
    {b b' : Body} (hb : b ∈ ls.st.world)
    (hb' : b' ∈ (processMesh ls m).st.world) (hid : b'.id = b.id) :
    b'.shape = b.shape := by
  rcases processMesh_world_mem ls m b' hb' with ⟨b0, hb0, hid0, hsh⟩ | hfresh
  · have hbb : b0 = b := mem_id_unique hwf.worldNodup hb hb0 (by omega)
    rw [hsh, hbb]
  · have := hwf.worldLt b hb
    omega

/-- Witness for the amended C6 at the sample state with one tracked
surface. -/
theorem onSessionEnd_teardown_witness :
    (onSessionEnd sessSample).track.meshMap = [] ∧
    (onSessionEnd sessSample).floorLocked = sessSample.floorLocked :=
  ⟨(onSessionEnd_teardown sessSample
      (by refine ⟨?_, ?_, ?_, ?_, ?_⟩ <;> simp [trackSample, sessSample])).1,
   (onSessionEnd_teardown sessSample
      (by refine ⟨?_, ?_, ?_, ?_, ?_⟩ <;> simp [trackSample, sessSample])).2.2.2.2.2.1⟩

-- --------------------------------------------------------------------------
-- Whole-frame facts: the detection fold and the garbage-collection sweep
-- --------------------------------------------------------------------------

theorem foldl_processMesh_WF (d : List XRMeshM) :
    ∀ ls : LoopState, WF ls.st → WF (d.foldl processMesh ls).st := by
  induction d with
  | nil => intro ls h; exact h
  | cons m rest ih => intro ls h; exact ih _ (processMesh_WF ls m h)

theorem foldl_processMesh_lookup (d : List XRMeshM) :
    ∀ (ls : LoopState) (k : Nat), k ∉ d.map XRMeshM.id →
      lookupRec (d.foldl processMesh ls).st.meshMap k = lookupRec ls.st.meshMap k := by
  induction d with
  | nil => intro ls k _; rfl
  | cons m rest ih =>
    intro ls k h
    simp only [List.map_cons, List.mem_cons] at h
    push_neg at h
    rw [List.foldl_cons, ih _ k h.2]
    exact processMesh_map_lookup_ne ls m k h.1

theorem foldl_processMesh_seen (d : List XRMeshM) :
    ∀ (ls : LoopState) (x : Nat), x ∈ (d.foldl processMesh ls).seen →
      x ∈ ls.seen ∨ x ∈ d.map XRMeshM.id := by
  induction d with
  | nil => intro ls x h; exact Or.inl h
  | cons m rest ih =>
    intro ls x h
    rw [List.foldl_cons] at h
    rcases ih _ x h with h1 | h1
    · rcases processMesh_seen_sub ls m x h1 with h2 | h2
      · exact Or.inl h2
      · right
        simp [h2]
    · right
      simp [h1]

theorem gcPass_map_fst_sublist (map : List (Nat × MeshRec)) :
    ∀ (seen : List Nat) (w : List Body) (sc : List Nat),
      ((gcPass map seen w sc).1).Sublist map := by
  induction map with
  | nil => intro seen w sc; exact List.Sublist.refl _
  | cons kr rest ih =>
    intro seen w sc
    rw [gcPass]
    by_cases h : kr.1 ∈ seen
    · rw [if_pos h]
      exact (ih seen w sc).cons₂ kr
    · rw [if_neg h]
      exact (ih seen _ _).cons kr

theorem gcPass_world_scene_sub (map : List (Nat × MeshRec)) :
    ∀ (seen : List Nat) (w : List Body) (sc : List Nat),
      ((gcPass map seen w sc).2.1).Sublist w ∧ ((gcPass map seen w sc).2.2).Sublist sc := by
  induction map with
  | nil => intro seen w sc; exact ⟨List.Sublist.refl _, List.Sublist.refl _⟩
  | cons kr rest ih =>
    intro seen w sc
    rw [gcPass]
    by_cases h : kr.1 ∈ seen
    · rw [if_pos h]
      exact ih seen w sc
    · rw [if_neg h]
      have hsub1 : ((removeMeshRecord (w, sc) kr.2).1).Sublist w := removeBody_sublist _ _
      have hsub2 : ((removeMeshRecord (w, sc) kr.2).2).Sublist sc :=
        (removeMeshRecord_sub w sc kr.2).2
      exact ⟨(ih seen _ _).1.trans hsub1, (ih seen _ _).2.trans hsub2⟩

theorem gcPass_dropped (map : List (Nat × MeshRec)) :
    ∀ (seen : List Nat) (w : List Body) (sc : List Nat),
      (map.map Prod.fst).Nodup → (w.map Body.id).Nodup →
      ∀ (k : Nat) (rec : MeshRec), lookupRec map k = some rec → k ∉ seen →
        lookupRec (gcPass map seen w sc).1 k = none ∧
        rec.bodyId ∉ (gcPass map seen w sc).2.1.map Body.id := by
  induction map with
  | nil =>
    intro seen w sc _ _ k rec hlk _
    simp [lookupRec] at hlk
  | cons kr rest ih =>
    intro seen w sc hkeys hw k rec hlk hks
    have hkeys' : (rest.map Prod.fst).Nodup := by
      simp only [List.map_cons] at hkeys
      exact hkeys.of_cons
    rw [gcPass]
    by_cases hs : kr.1 ∈ seen
    · rw [if_pos hs]
      have hne : kr.1 ≠ k := by
        intro he
        exact hks (he ▸ hs)
      simp only [lookupRec, if_neg hne] at hlk
      have hres := ih seen w sc hkeys' hw k rec hlk hks
      constructor
      · simp only [lookupRec, if_neg hne]
        exact hres.1
      · exact hres.2
    · rw [if_neg hs]
      have hw1 : ((removeMeshRecord (w, sc) kr.2).1.map Body.id).Nodup :=
        (removeMeshRecord_sub w sc kr.2).1.nodup hw
      by_cases hk : kr.1 = k
      · simp only [lookupRec, if_pos hk] at hlk
        injection hlk with hlk
        constructor
        · rw [lookupRec_eq_none]
          intro hmem
          have hsubk := (gcPass_map_fst_sublist rest seen
            (removeMeshRecord (w, sc) kr.2).1 (removeMeshRecord (w, sc) kr.2).2).map Prod.fst
          have hmemk : k ∈ rest.map Prod.fst := hsubk.subset hmem
          simp only [List.map_cons] at hkeys
          rcases List.nodup_cons.mp hkeys with ⟨hnot, _⟩
          rw [hk] at hnot
          exact hnot hmemk
        · intro hmem
          have hsubw := ((gcPass_world_scene_sub rest seen
            (removeMeshRecord (w, sc) kr.2).1 (removeMeshRecord (w, sc) kr.2).2).1).map Body.id
          have hmem1 : rec.bodyId ∈ (removeMeshRecord (w, sc) kr.2).1.map Body.id :=
            hsubw.subset hmem
          rw [show (removeMeshRecord (w, sc) kr.2).1 = removeBody w kr.2.bodyId from rfl,
            removeBody_map_id, ← hlk] at hmem1
          rcases (List.Nodup.mem_erase_iff hw).mp hmem1 with ⟨hne2, _⟩
          exact hne2 rfl
      · simp only [lookupRec, if_neg hk] at hlk
        exact ih seen _ _ hkeys' hw1 k rec hlk hks

theorem handleDetectedMeshes_WF (st : TrackState) (d : List XRMeshM) (hwf : WF st) :
    WF (handleDetectedMeshes st d) := by
  have hloop := foldl_processMesh_WF d ⟨st, 0, []⟩ hwf
  unfold handleDetectedMeshes
  refine ⟨?_, ?_, ?_, ?_, ?_⟩ <;> dsimp only
  · exact ((gcPass_world_scene_sub _ _ _ _).1.map Body.id).nodup hloop.worldNodup
  · exact ((gcPass_map_fst_sublist _ _ _ _).map Prod.fst).nodup hloop.keysNodup
  · exact ((gcPass_world_scene_sub _ _ _ _).2).nodup hloop.sceneNodup
  · intro b hb
    exact hloop.worldLt b ((gcPass_world_scene_sub _ _ _ _).1.subset hb)
  · intro e he
    exact hloop.sceneLt e ((gcPass_world_scene_sub _ _ _ _).2.subset he)

/-- C7: a previously tracked surface absent from the current frame's
detection list has its record deleted from the map and its physics body
removed from the world; the world keeps pairwise-distinct body identities
and the tracker invariant is preserved, so across any sequence of frames
each body is removed at most once (no double removal) and no body of an
untracked surface is left in the world. -/
theorem handleDetectedMeshes_gc (st : TrackState) (detected : List XRMeshM)
    (k : Nat) (rec : MeshRec) (hwf : WF st)
    (hrec : lookupRec st.meshMap k = some rec)
    (habs : k ∉ detected.map XRMeshM.id) :
    lookupRec (handleDetectedMeshes st detected).meshMap k = none ∧
    rec.bodyId ∉ (handleDetectedMeshes st detected).world.map Body.id ∧
    WF (handleDetectedMeshes st detected) := by
  have hloop := foldl_processMesh_WF detected ⟨st, 0, []⟩ hwf
  have hlk : lookupRec (detected.foldl processMesh ⟨st, 0, []⟩).st.meshMap k = some rec := by
    rw [foldl_processMesh_lookup detected ⟨st, 0, []⟩ k habs]
    exact hrec
  have hseen : k ∉ (detected.foldl processMesh ⟨st, 0, []⟩).seen := by
    intro hk
    rcases foldl_processMesh_seen detected ⟨st, 0, []⟩ k hk with h | h
    · simp at h
    · exact habs h
  have hdrop := gcPass_dropped (detected.foldl processMesh ⟨st, 0, []⟩).st.meshMap
    (detected.foldl processMesh ⟨st, 0, []⟩).seen
    (detected.foldl processMesh ⟨st, 0, []⟩).st.world
    (detected.foldl processMesh ⟨st, 0, []⟩).st.scene
    hloop.keysNodup hloop.worldNodup k rec hlk hseen
  exact ⟨hdrop.1, hdrop.2, handleDetectedMeshes_WF st detected hwf⟩

/-- Witness for C7: one tracked surface, empty detection list. -/
theorem handleDetectedMeshes_gc_witness :
    lookupRec (handleDetectedMeshes trackSample []).meshMap 5 = none :=
  (handleDetectedMeshes_gc trackSample [] 5 ⟨0, none, 3⟩
    (by refine ⟨?_, ?_, ?_, ?_, ?_⟩ <;> simp [trackSample])
    (by decide) (by simp)).1

/-- C3: when a tracked surface reports a `lastChangedTime` tag that is not
strictly greater than the stored one, the surface's record keeps the same
physics body and tag (no rebuild), only the body's pose is updated, the
world's identity list and the scene are unchanged; moreover for any
processed surface an existing body's shape is never mutated in place — a
rebuild always allocates a fresh body. -/
theorem meshRec_same_tag_no_rebuild (ls : LoopState) (m : XRMeshM) (rec : MeshRec)
    (pose : Pose) (hwf : WF ls.st) (hcnt : ls.count < MAX_MESHES)
    (hrec : lookupRec ls.st.meshMap m.id = some rec)
    (hpose : m.poseOf = some pose)
    (htag : m.lastChangedTime ≤ rec.lastChangedTime) :
    lookupRec (processMesh ls m).st.meshMap m.id = some rec ∧
    (processMesh ls m).st.world = setBodyPose ls.st.world rec.bodyId pose ∧
    (processMesh ls m).st.world.map Body.id = ls.st.world.map Body.id ∧
    (processMesh ls m).st.scene = ls.st.scene ∧
    (∀ (n : XRMeshM) (b b' : Body), b ∈ ls.st.world →
        b' ∈ (processMesh ls n).st.world → b'.id = b.id → b'.shape = b.shape) := by
  have h1 : ¬ MAX_MESHES ≤ ls.count := by omega
  have h2 : ¬ rec.lastChangedTime < m.lastChangedTime := by omega
  have hred : processMesh ls m =
      ⟨{ ls.st with world := setBodyPose ls.st.world rec.bodyId pose },
        ls.count + 1, ls.seen ++ [m.id]⟩ := by
    simp [processMesh, semanticsRejected_false, h1, h2, hpose, hrec]
  refine ⟨?_, ?_, ?_, ?_, ?_⟩
  · rw [hred]
    exact hrec
  · rw [hred]
  · rw [hred]
    exact setBodyPose_map_id _ _ _
  · rw [hred]
  · intro n b b' hb hb' hid
    exact processMesh_shape_stable ls n hwf hb hb' hid

/-- Witness for C3: the sample tracked surface reports the same tag 3. -/
theorem meshRec_same_tag_no_rebuild_witness :
    lookupRec (processMesh ⟨trackSample, 0, []⟩
        ⟨5, 3, some [], some [], none, some poseSample, false⟩).st.meshMap 5 =
      some ⟨0, none, 3⟩ :=
  (meshRec_same_tag_no_rebuild ⟨trackSample, 0, []⟩
      ⟨5, 3, some [], some [], none, some poseSample, false⟩ ⟨0, none, 3⟩ poseSample
      (by refine ⟨?_, ?_, ?_, ?_, ?_⟩ <;> simp [trackSample])
      (by decide) (by decide) rfl (by decide)).1

theorem processMesh_skip (ls : LoopState) (f : XRMeshM)
    (hnew : lookupRec ls.st.meshMap f.id = none)
    (hfail : createTrimeshShapeCapped f = none) :
    processMesh ls f = ls := by
  unfold processMesh
  repeat' split
  all_goals simp_all

/-- Helper: a shape-construction failure for an UNTRACKED surface makes the
whole frame behave exactly as if that surface were not in the batch: every
other surface is processed identically and nothing aborts or escapes. -/
theorem handleDetectedMeshes_skip_failed (st : TrackState) (d1 d2 : List XRMeshM)
    (f : XRMeshM) (hnew : lookupRec st.meshMap f.id = none)
    (hfail : createTrimeshShapeCapped f = none)
    (hfresh : f.id ∉ d1.map XRMeshM.id) :
    handleDetectedMeshes st (d1 ++ f :: d2) = handleDetectedMeshes st (d1 ++ d2) := by
  have h1' : lookupRec ((d1.foldl processMesh ⟨st, 0, []⟩)).st.meshMap f.id = none := by
    rw [foldl_processMesh_lookup d1 ⟨st, 0, []⟩ f.id hfresh]
    exact hnew
  have hfold : (d1 ++ f :: d2).foldl processMesh ⟨st, 0, []⟩ =
      (d1 ++ d2).foldl processMesh ⟨st, 0, []⟩ := by
    rw [List.foldl_append, List.foldl_append, List.foldl_cons,
      processMesh_skip _ f h1' hfail]
  unfold handleDetectedMeshes
  rw [hfold]

/-- C8 counterexample: a TRACKED surface (key 5, body 0, stored tag 3)
reports tag 4 with degenerate geometry (empty index buffer, so
`createTrimeshShapeCapped` yields null).  The frame does not merely skip
it: the old body is removed from the world and the record survives with
the updated tag 4 (pointing at the removed body), and the frame result
differs from the frame with the surface absent from the batch — main.js
lines 370-394 call `world.removeBody(rec.body)` before building the new
shape and update `rec.lastChangedTime` even when the build fails. -/
theorem rebuild_failure_not_a_skip :
    lookupRec (handleDetectedMeshes trackSample
        [⟨5, 4, some [], some [], none, some poseSample, false⟩]).meshMap 5 =
      some ⟨0, none, 4⟩ ∧
    (handleDetectedMeshes trackSample
        [⟨5, 4, some [], some [], none, some poseSample, false⟩]).world = [] ∧
    handleDetectedMeshes trackSample
        [⟨5, 4, some [], some [], none, some poseSample, false⟩] ≠
      handleDetectedMeshes trackSample [] := by
  decide

/-- C8 (amended): a shape-construction failure (missing buffers, zero
triangle count, or a trimesh-constructor exception) never aborts the batch
and never propagates an exception, and the loop always advances to the
remaining surfaces; for an UNTRACKED surface the failure is a pure skip —
the frame result equals the frame with that surface removed from the
batch — while for a TRACKED surface whose tag strictly increased the
failed rebuild is not a pure skip: the old body has already been removed
from the world (after its pose update) and the record is kept with the
updated tag and the stale body id, with count and seen advancing so the
rest of the batch is processed. -/
theorem handleDetectedMeshes_shape_failure :
    (∀ (st : TrackState) (d1 d2 : List XRMeshM) (f : XRMeshM),
        lookupRec st.meshMap f.id = none →
        createTrimeshShapeCapped f = none →
        f.id ∉ d1.map XRMeshM.id →
        handleDetectedMeshes st (d1 ++ f :: d2) = handleDetectedMeshes st (d1 ++ d2)) ∧
    (∀ (ls : LoopState) (m : XRMeshM) (rec : MeshRec) (pose : Pose),
        ¬ MAX_MESHES ≤ ls.count →
        m.poseOf = some pose →
        lookupRec ls.st.meshMap m.id = some rec →
        rec.lastChangedTime < m.lastChangedTime →
        createTrimeshShapeCapped m = none →
        processMesh ls m =
          ⟨{ world := removeBody (setBodyPose ls.st.world rec.bodyId pose) rec.bodyId,
             meshMap := updateRec ls.st.meshMap m.id
               { rec with lastChangedTime := m.lastChangedTime },
             scene := ls.st.scene, nextId := ls.st.nextId },
            ls.count + 1, ls.seen ++ [m.id]⟩) := by
  constructor
  · intro st d1 d2 f hnew hfail hfresh
    exact handleDetectedMeshes_skip_failed st d1 d2 f hnew hfail hfresh
  · intro ls m rec pose hcnt hpose hrec htag hfailm
    simp [processMesh, semanticsRejected_false, hcnt, hpose, hrec, htag, hfailm]

/-- Witness for the amended C8: the tracked sample surface reports tag 4
with an empty index buffer; the old body is removed and the record keeps
the stale body id with the new tag. -/
theorem handleDetectedMeshes_shape_failure_witness :
    processMesh ⟨trackSample, 0, []⟩
        ⟨5, 4, some [], some [], none, some poseSample, false⟩ =
      ⟨{ world := removeBody (setBodyPose trackSample.world 0 poseSample) 0,
         meshMap := updateRec trackSample.meshMap 5 ⟨0, none, 4⟩,
         scene := trackSample.scene, nextId := trackSample.nextId },
        1, [5]⟩ :=
  handleDetectedMeshes_shape_failure.2 ⟨trackSample, 0, []⟩
    ⟨5, 4, some [], some [], none, some poseSample, false⟩ ⟨0, none, 3⟩ poseSample
    (by decide) rfl (by decide) (by decide) rfl

-- --------------------------------------------------------------------------
-- Distance culling of the optimized snapshot (C4)
-- --------------------------------------------------------------------------

theorem maxR2_ub : ∀ (vs : List ℚ) (v : ℚ × ℚ × ℚ), v ∈ Opt.triples vs →
    v.1 * v.1 + v.2.1 * v.2.1 + v.2.2 * v.2.2 ≤ Opt.maxR2 vs
  | x :: y :: z :: rest, v, hv => by
    rw [Opt.triples] at hv
    rw [Opt.maxR2]
    rcases List.mem_cons.mp hv with rfl | hv
    · exact le_max_right _ _
    · exact le_trans (maxR2_ub rest v hv) (le_max_left _ _)
  | [], v, hv => by simp [Opt.triples] at hv
  | [x], v, hv => by simp [Opt.triples] at hv
  | [x, y], v, hv => by simp [Opt.triples] at hv

theorem maxR2_zero : ∀ vs : List ℚ, Opt.triples vs = [] → Opt.maxR2 vs = 0
  | _ :: _ :: _ :: _, h => by simp [Opt.triples] at h
  | [], _ => rfl
  | [_], _ => rfl
  | [_, _], _ => rfl

theorem maxR2_attained : ∀ vs : List ℚ, Opt.triples vs ≠ [] →
    ∃ v ∈ Opt.triples vs,
      Opt.maxR2 vs = v.1 * v.1 + v.2.1 * v.2.1 + v.2.2 * v.2.2
  | x :: y :: z :: rest, _ => by
    by_cases h : Opt.triples rest = []
    · refine ⟨(x, y, z), ?_, ?_⟩
      · rw [Opt.triples]
        exact List.mem_cons_self _ _
      · rw [Opt.maxR2, maxR2_zero rest h]
        exact max_eq_right
          (add_nonneg (add_nonneg (mul_self_nonneg x) (mul_self_nonneg y))
            (mul_self_nonneg z))
    · rcases maxR2_attained rest h with ⟨v, hv, heq⟩
      rcases le_or_lt (x * x + y * y + z * z) (Opt.maxR2 rest) with hle | hlt
      · refine ⟨v, ?_, ?_⟩
        · rw [Opt.triples]
          exact List.mem_cons_of_mem _ hv
        · rw [Opt.maxR2, max_eq_left hle, heq]
      · refine ⟨(x, y, z), ?_, ?_⟩
        · rw [Opt.triples]
          exact List.mem_cons_self _ _
        · rw [Opt.maxR2, max_eq_right (le_of_lt hlt)]
  | [], h => absurd rfl h
  | [_], h => absurd rfl h
  | [_, _], h => absurd rfl h

/-- C4: the bounding radius of a detected surface is estimated as the
maximum distance of its vertex triples from the local origin (an upper
bound that is attained on a nonempty buffer); whenever the viewer-to-pose
distance minus that radius exceeds `MAX_MESH_DISTANCE = 6.5`, the loop body
of the optimized snapshot's `handleDetectedMeshes` skips an untracked
surface entirely and tears a tracked one down (body out of the world,
record out of the map); concretely, distance 10 with radius 2 gives
`10 - 2 = 8 > 6.5`. -/
theorem mesh_distance_culling :
    (∀ (vs : List ℚ) (v : ℚ × ℚ × ℚ), v ∈ Opt.triples vs →
        Real.sqrt ((v.1 * v.1 + v.2.1 * v.2.1 + v.2.2 * v.2.2 : ℚ) : ℝ) ≤
          Opt.estimateRadius vs) ∧
    (∀ vs : List ℚ, Opt.triples vs ≠ [] →
        ∃ v ∈ Opt.triples vs, Opt.estimateRadius vs =
          Real.sqrt ((v.1 * v.1 + v.2.1 * v.2.1 + v.2.2 * v.2.2 : ℚ) : ℝ)) ∧
    (∀ (camPos : Vec3) (ls : Opt.LoopState2) (m : Opt.XRMesh2) (pose : Pose),
        ¬ MAX_MESHES ≤ ls.count → Opt.semanticsAccepted m = true →
        m.poseOf = some pose →
        Opt.lookupRec2 ls.st.meshMap m.id = none →
        (Opt.MAX_MESH_DISTANCE : ℝ) <
          Opt.meshDist camPos pose.pos - Opt.estimateRadius m.vertices →
        Opt.processMesh2 camPos ls m = ls) ∧
    (∀ (camPos : Vec3) (ls : Opt.LoopState2) (m : Opt.XRMesh2) (pose : Pose)
        (rec : Opt.MeshRec2),
        ¬ MAX_MESHES ≤ ls.count → Opt.semanticsAccepted m = true →
        m.poseOf = some pose →
        Opt.lookupRec2 ls.st.meshMap m.id = some rec →
        (Opt.MAX_MESH_DISTANCE : ℝ) < Opt.meshDist camPos pose.pos - rec.radius →
        (Opt.processMesh2 camPos ls m).st.world = removeBody ls.st.world rec.bodyId ∧
        (Opt.processMesh2 camPos ls m).st.meshMap = Opt.deleteRec2 ls.st.meshMap m.id ∧
        (Opt.processMesh2 camPos ls m).count = ls.count ∧
        (Opt.processMesh2 camPos ls m).seen = ls.seen) ∧
    (Opt.meshDist ⟨0, 0, 0⟩ ⟨10, 0, 0⟩ = 10 ∧
     Opt.estimateRadius [2, 0, 0] = 2 ∧
     (Opt.MAX_MESH_DISTANCE : ℝ) <
       Opt.meshDist ⟨0, 0, 0⟩ ⟨10, 0, 0⟩ - Opt.estimateRadius [2, 0, 0]) := by
  have hdist : Opt.meshDist ⟨0, 0, 0⟩ ⟨10, 0, 0⟩ = 10 := by
    unfold Opt.meshDist
    norm_num
    rw [show (100 : ℝ) = 10 ^ 2 by norm_num]
    exact Real.sqrt_sq (by norm_num)
  have hrad : Opt.estimateRadius [2, 0, 0] = 2 := by
    unfold Opt.estimateRadius
    rw [show Opt.maxR2 [2, 0, 0] = 4 by norm_num [Opt.maxR2]]
    norm_num
    rw [show (4 : ℝ) = 2 ^ 2 by norm_num]
    exact Real.sqrt_sq (by norm_num)
  refine ⟨?_, ?_, ?_, ?_, hdist, hrad, ?_⟩
  · intro vs v hv
    unfold Opt.estimateRadius
    exact Real.sqrt_le_sqrt (by exact_mod_cast maxR2_ub vs v hv)
  · intro vs hvs
    rcases maxR2_attained vs hvs with ⟨v, hv, heq⟩
    refine ⟨v, hv, ?_⟩
    unfold Opt.estimateRadius
    rw [heq]
  · intro camPos ls m pose hcnt hsem hpose hlk hcull
    simp [Opt.processMesh2, hcnt, hsem, hpose, hlk, hcull]
  · intro camPos ls m pose rec hcnt hsem hpose hlk hcull
    have hred : Opt.processMesh2 camPos ls m =
        { ls with st := { world := removeBody ls.st.world rec.bodyId,
                          meshMap := Opt.deleteRec2 ls.st.meshMap m.id,
                          scene := (Opt.removeMeshRecord2 (ls.st.world, ls.st.scene) rec).2,
                          nextId := ls.st.nextId } } := by
      simp [Opt.processMesh2, hcnt, hsem, hpose, hlk, hcull, Opt.removeMeshRecord2]
    rw [hred]
    exact ⟨rfl, rfl, rfl, rfl⟩
  · rw [hdist, hrad]
    norm_num [Opt.MAX_MESH_DISTANCE]

/-- Witness for C4 at a concrete vertex buffer: the single vertex (2,0,0)
is within the estimated radius. -/
theorem mesh_distance_culling_witness :
    Real.sqrt ((((2 : ℚ) * 2 + 0 * 0 + 0 * 0 : ℚ)) : ℝ) ≤
      Opt.estimateRadius [2, 0, 0] :=
  mesh_distance_culling.1 [2, 0, 0] (2, 0, 0) (by simp [Opt.triples])

end Balls
